import Mathlib

/-!
# Verification of the PicoFlasher core (`src/flash.py`)

Shallow embedding of the `SafeISOFlasher` class from `src/flash.py`.
The operating-system world (sysfs files, the mount table, `lsblk` output,
block-device contents, subprocess outcomes) is captured by an explicit
`Env` record; each Python method becomes a pure Lean function over `Env`.
Byte strings are `List Nat`, machine paths are `String`.  The SHA-256
digest is modelled as an abstract function `Env.sha256 : List Nat → String`
(every property proved below compares digests of byte sequences that are
themselves compared, so no algebraic property of the hash is assumed).
-/

namespace PicoFlasher

/-- The status enumeration `FlashStatus` of `flash.py` (lines 33-41). -/
inductive FlashStatus where
  | IDLE
  | VALIDATING
  | UNMOUNTING
  | FLASHING
  | VERIFYING
  | COMPLETED
  | ERROR
  | CANCELLED
deriving DecidableEq, Repr

/-- When, within one `flash_iso` invocation, `cancel_flash` (lines
953-959) was invoked from the concurrent caller.  `flash_iso` clears
`_stop_progress` and `_cancelled` on entry (lines 498-499), so only
arrivals after that matter; they are classified by the phase status the
session holds at that moment (between one `_set_status` of `flash_iso`
and the next).  An arrival after the session's terminal write is
indistinguishable from a post-return cancellation and is not part of the
invocation's history modelled here. -/
inductive CancelPoint where
  | none
  | validating
  | unmounting
  | flashing
  | verifying
deriving DecidableEq, Repr

/-- The phase status during which the `cancel_flash` arrival of a given
`CancelPoint` happens. -/
def cancelAfter : CancelPoint → Option FlashStatus
  | .none => Option.none
  | .validating => some .VALIDATING
  | .unmounting => some .UNMOUNTING
  | .flashing => some .FLASHING
  | .verifying => some .VERIFYING

/-- The full history of writes to `self._status` during one `flash_iso`
invocation: the session's own writes (the argument list), with the single
`_set_status(CANCELLED)` performed by `cancel_flash` (line 957) inserted
right after the status of the phase during which it arrived.  Within a
phase the session itself performs no writes, so every arrival inside a
phase produces this same interleaving; if the arrival phase was never
entered, no concurrent write occurs during the call. -/
def weaveCancel (cp : CancelPoint) : List FlashStatus → List FlashStatus
  | [] => []
  | s :: t =>
    if cancelAfter cp = some s then s :: FlashStatus.CANCELLED :: t
    else s :: weaveCancel cp t

/-- The `USBDevice` dataclass of `flash.py` (lines 44-55). -/
structure USBDevice where
  device : String
  mountpoint : String
  total_size : Nat
  used : Nat
  free : Nat
  filesystem : String
  model : String
  vendor : String
  serial : String
  read_only : Bool
deriving DecidableEq, Repr

/-- One row of the mount table as reported by `psutil.disk_partitions`. -/
structure MountEntry where
  device : String
  mountpoint : String
  fstype : String
deriving DecidableEq, Repr

/-- The operating-system world the flasher probes.  Each field models the
outcome of one class of OS interaction performed by `flash.py`:
sysfs reads, path existence, `lsblk`, `blockdev --getsize64` (with its
ioctl fallback, folded into `devSize`, returning 0 on failure, lines
244-259), the two mount-table views, file metadata and contents, and the
outcomes of the `dd`/`umount` subprocesses. -/
structure Env where
  /-- major number of the device holding `/` (`os.stat('/').st_dev`, line 370). -/
  rootMajor : Nat
  /-- parsed major number from `/sys/block/<name>/dev`; `none` models a
  missing/unreadable/malformed file (any exception in lines 374-376). -/
  sysDev : String → Option Nat
  /-- `(NAME, TYPE)` rows reported by `lsblk -ndo NAME,TYPE` (lines 222-242). -/
  lsblk : List (String × String)
  /-- `_get_device_size` outcome: `blockdev --getsize64` or the
  `BLKGETSIZE64` ioctl fallback, 0 when both fail (lines 244-259). -/
  devSize : String → Nat
  /-- `os.path.exists`. -/
  pathExists : String → Bool
  /-- contents of a small sysfs text file; `none` when the file is absent
  or unreadable (the `os.path.exists` + `open`/`read` pattern). -/
  fileRead : String → Option String
  /-- `os.readlink` of a sysfs symlink; `none` when absent or failing. -/
  symlinkTarget : String → Option String
  /-- directory names encountered by the `os.walk` in lines 350-358;
  `[]` when the directory is missing or the walk raises. -/
  walkDirs : String → List String
  /-- an unexpected per-device exception during enumeration (lines 206-208). -/
  deviceError : String → Bool
  /-- `psutil.disk_partitions()` (the default, mounted-filesystems view). -/
  partitions : List MountEntry
  /-- `psutil.disk_partitions(all=True)` as used by `_safe_unmount`. -/
  partitionsAll : List MountEntry
  /-- whether the `umount` (or the forced retry) of this partition device
  actually releases the mount (lines 643-652). -/
  umountOk : String → Bool
  /-- `psutil.disk_usage(mountpoint)` as `(used, free)`; `none` models the
  exception branch of lines 181-191. -/
  diskUsage : String → Option (Nat × Nat)
  /-- `Path(p).is_file()`. -/
  isFile : String → Bool
  /-- `os.access(p, os.R_OK)`. -/
  readable : String → Bool
  /-- `os.access(p, os.W_OK)`. -/
  writable : String → Bool
  /-- `sudo test -w p` succeeding (lines 693-698). -/
  sudoWritable : String → Bool
  /-- `os.path.getsize` / `Path.stat().st_size`. -/
  fsize : String → Nat
  /-- the byte contents of a regular file. -/
  fcontent : String → List Nat
  /-- an `IOError` while opening the file or reading its 32 KiB header
  (caught at line 450 before the header is classified). -/
  readFails : String → Bool
  /-- an `IOError` during the full-file checksum pass (lines 444-448),
  i.e. after the header has already been classified. -/
  checksumReadFails : String → Bool
  /-- the byte contents readable from a block device node. -/
  devContent : String → List Nat
  /-- the SHA-256 hex digest, abstract. -/
  sha256 : List Nat → String
  /-- the `dd` subprocess / direct-write loop succeeding (when it runs to
  the end without cancellation). -/
  ddSuccess : Bool
  /-- the failure message of the write step when it fails on its own. -/
  ddMessage : String
  /-- `self._stop_progress.is_set()` observed inside the write loop /
  subprocess poll (lines 715, 726, 746, 768): a cancellation signalled
  while the write phase is in progress. -/
  ddStopObserved : Bool
  /-- the value of `self._cancelled` at the check of line 558, i.e.
  whether `cancel_flash` ran before control returned from the write. -/
  cancelRequested : Bool
  /-- the phase during which `cancel_flash` was invoked within this call
  (`CancelPoint.none` when it was not).  A coherent world satisfies
  `cancelRequested = true` exactly when this is `validating`,
  `unmounting` or `flashing` (an arrival during verification happens
  after the line-558 check), and `ddStopObserved = true` only with
  `cancelRequested = true`; the concrete worlds below are coherent, and
  theorems state the links they need as hypotheses. -/
  cancelPoint : CancelPoint
  /-- the probe `dd` read of the device succeeding (lines 844-853). -/
  ddReadOk : Bool
  /-- the `dd | sha256sum` pipeline succeeding (lines 860-875). -/
  shaPipeOk : Bool

/-- `s.rstrip('/')`. -/
def rstripSlash (s : String) : String :=
  ⟨(s.data.reverse.dropWhile (fun c => c == '/')).reverse⟩

/-- The character run after the last `/`. -/
def basenameChars : List Char → List Char → List Char
  | [], acc => acc.reverse
  | c :: t, acc => if c == '/' then basenameChars t [] else basenameChars t (c :: acc)

/-- `os.path.basename`: the part after the last `/`. -/
def pyBasename (s : String) : String :=
  ⟨basenameChars s.data []⟩

/-- Python's `str.strip()`: leading and trailing whitespace removed. -/
def pyStrip (s : String) : String :=
  let ws := fun c : Char => c == ' ' || c == '\n' || c == '\t' || c == '\r'
  ⟨((s.data.dropWhile ws).reverse.dropWhile ws).reverse⟩

/-- Python's `str.startswith`. -/
def pyStartsWith (s pre : String) : Bool :=
  pre.data.isPrefixOf s.data

/-- Python's `needle in hay` on sequences: some contiguous run of `hay`
equals `needle` (true for an empty needle). -/
def seqMem {α : Type} [BEq α] (needle : List α) : List α → Bool
  | [] => needle.isEmpty
  | a :: t => needle.isPrefixOf (a :: t) || seqMem needle t

/-- Python's `sub in s` on strings. -/
def strHas (sub s : String) : Bool :=
  seqMem sub.toList s.toList

/-- ASCII bytes of `CD001`, the ISO-9660 signature checked at line 431. -/
def cd001B : List Nat := [67, 68, 48, 48, 49]

/-- ASCII bytes of `EFI PART` (GPT marker, line 469). -/
def efiPartB : List Nat := [69, 70, 73, 32, 80, 65, 82, 84]

/-- ASCII bytes of the bootloader fragments of lines 473-478:
`isolinux`, `syslinux`, `grub`, `boot.catalog`. -/
def hybridPatternsB : List (List Nat) :=
  [[105, 115, 111, 108, 105, 110, 117, 120],
   [115, 121, 115, 108, 105, 110, 117, 120],
   [103, 114, 117, 98],
   [98, 111, 111, 116, 46, 99, 97, 116, 97, 108, 111, 103]]

/-- `_get_all_block_devices` (lines 222-242): the `lsblk` rows of type
`disk`, as `/dev/<name>` paths.  (The plain-text fallback parse of lines
233-238 produces the same rows.) -/
def get_all_block_devices (env : Env) : List String :=
  (env.lsblk.filter (fun r => r.2 == "disk")).map (fun r => "/dev/" ++ r.1)

/-- `_get_device_size` (lines 244-259), folded into the environment. -/
def get_device_size (env : Env) (device_path : String) : Nat :=
  env.devSize device_path

/-- `_is_system_disk` (lines 366-381): the device shares the major number
of the filesystem root.  Any failure reading or parsing
`/sys/block/<name>/dev` is caught and yields `False` (line 380-381). -/
def is_system_disk (env : Env) (device_path : String) : Bool :=
  match env.sysDev (pyBasename (rstripSlash device_path)) with
  | some maj => maj == env.rootMajor
  | none => false

/-- `_get_device_info` (lines 261-290). -/
def get_device_info (env : Env) (device_path : String) : String × String × String :=
  let sysfs := "/sys/block/" ++ pyBasename (rstripSlash device_path)
  (((env.fileRead (sysfs ++ "/device/model")).map pyStrip).getD "Unknown",
   ((env.fileRead (sysfs ++ "/device/vendor")).map pyStrip).getD "Unknown",
   ((env.fileRead (sysfs ++ "/device/serial")).map pyStrip).getD "Unknown")

/-- `_get_mountpoint` (lines 292-300). -/
def get_mountpoint (env : Env) (device_path : String) : String :=
  match env.partitions.find? (fun p => p.device == device_path) with
  | some p => p.mountpoint
  | none => "Not mounted"

/-- `_is_read_only` (lines 302-312). -/
def is_read_only (env : Env) (device_path : String) : Bool :=
  match env.fileRead ("/sys/block/" ++ pyBasename (rstripSlash device_path) ++ "/ro") with
  | some c => pyStrip c == "1"
  | none => false

/-- `_is_usb_device_linux` (lines 314-364).  The checks in source order:
sysfs node present; `removable` attribute equal to `1`; `usb` in
`device/path`; `usb` in the `device/subsystem` link target; for `sd*`
names, a `usb` marker among the directories of the `os.walk`.  (The file
check `file == "modalias" and "usb" in file` of line 352 is dead code:
`"usb" in "modalias"` is always false.) -/
def is_usb_device_linux (env : Env) (device_path : String) : Bool :=
  let name := pyBasename (rstripSlash device_path)
  let sysfs := "/sys/block/" ++ name
  if env.pathExists sysfs = false then false
  else if (env.fileRead (sysfs ++ "/removable")).any (fun c => pyStrip c == "1") then true
  else if (env.fileRead (sysfs ++ "/device/path")).any (fun c => strHas "usb" c.toLower) then true
  else if (env.symlinkTarget (sysfs ++ "/device/subsystem")).any (fun t => strHas "usb" t.toLower) then true
  else if pyStartsWith name "sd" then
    (env.walkDirs (sysfs ++ "/device")).any (fun d => strHas "usb" d.toLower)
  else false

/-- Per-device body of `_list_usb_devices_linux` (lines 158-208): the
device construction of lines 173-204, with the metadata lookups of the
source.  (`used`/`free` default to `0`/`size`; when mounted they come
from `psutil.disk_usage`, whose failure keeps the defaults and also skips
the fstype lookup, mirroring the shared `try` of lines 180-191.) -/
def mkUSBDevice (env : Env) (device_path : String) (size : Nat) : USBDevice :=
  let info := get_device_info env device_path
  let mp := get_mountpoint env device_path
  let ro := is_read_only env device_path
  if mp == "Not mounted" then
    { device := device_path, mountpoint := mp, total_size := size, used := 0, free := size,
      filesystem := "Unknown", model := info.1, vendor := info.2.1, serial := info.2.2,
      read_only := ro }
  else
    match env.diskUsage mp with
    | none =>
      { device := device_path, mountpoint := mp, total_size := size, used := 0, free := size,
        filesystem := "Unknown", model := info.1, vendor := info.2.1, serial := info.2.2,
        read_only := ro }
    | some (u, f) =>
      { device := device_path, mountpoint := mp, total_size := size, used := u, free := f,
        filesystem := ((env.partitions.find? (fun p => p.device == device_path)).map
          MountEntry.fstype).getD "Unknown",
        model := info.1, vendor := info.2.1, serial := info.2.2, read_only := ro }

/-- `_list_usb_devices_linux` (lines 153-210): skip on a per-device
error, on the system disk, on a non-USB device, and on size 0. -/
def list_usb_devices_linux (env : Env) : List USBDevice :=
  (get_all_block_devices env).filterMap (fun dp =>
    if env.deviceError dp then none
    else if is_system_disk env dp then none
    else if is_usb_device_linux env dp = false then none
    else
      let size := get_device_size env dp
      if size = 0 then none
      else some (mkUSBDevice env dp size))

/-- The ordering used by `devices.sort(key=lambda x: x.device)` (line 150). -/
def deviceLE (a b : USBDevice) : Prop := a.device ≤ b.device

instance : DecidableRel deviceLE := fun a b =>
  inferInstanceAs (Decidable (a.device ≤ b.device))

instance : IsTotal USBDevice deviceLE := ⟨fun a b => le_total a.device b.device⟩

instance : IsTrans USBDevice deviceLE := ⟨fun _ _ _ h1 h2 => le_trans h1 h2⟩

/-- `list_usb_devices` (lines 133-151) on the Linux platform: enumerate,
then sort by device path. -/
def list_usb_devices (env : Env) : List USBDevice :=
  List.insertionSort deviceLE (list_usb_devices_linux env)

/-- The result dictionary of `validate_iso` (lines 385-392). -/
structure IsoValidation where
  valid : Bool
  size : Nat
  error : String
  name : String
  checksum : String
  is_hybrid : Bool
deriving DecidableEq, Repr

/-- `_is_hybrid_iso` (lines 461-484): boot-sector magic `55 AA` at offset
510, or `EFI PART` at offset 512 (when the header is long enough), or one
of the bootloader byte fragments anywhere in the header. -/
def is_hybrid_iso (header : List Nat) : Bool :=
  if 512 ≤ header.length ∧ (header.drop 510).take 2 = [85, 170] then true
  else if 512 ≤ header.length ∧ 520 ≤ header.length ∧ (header.drop 512).take 8 = efiPartB then
    true
  else hybridPatternsB.any (fun p => seqMem p header)

/-- `validate_iso` (lines 383-459).  Checks in source order: existence,
regular file, read permission, nonzero size, size at most 10 GiB, a
readable 32 KiB header, then the `CD001` / hybrid classification (all
three classification branches mark the file valid), then the streaming
checksum.  An `IOError` while reading the header (`readFails`) leaves
`valid := false`; an `IOError` during the checksum pass
(`checksumReadFails`) hits the same `except IOError` handler at line 450
but only after `valid` has already been set by the classification, so the
descriptor it returns carries `valid := true` together with the error
message and an empty checksum.  The function never raises: every path
returns a populated descriptor. -/
def validate_iso (env : Env) (iso_path : String) : IsoValidation :=
  let name := pyBasename iso_path
  if env.pathExists iso_path = false then
    { valid := false, size := 0, error := "ISO file not found: " ++ iso_path,
      name := name, checksum := "", is_hybrid := false }
  else if env.isFile iso_path = false then
    { valid := false, size := 0, error := "Not a regular file: " ++ iso_path,
      name := name, checksum := "", is_hybrid := false }
  else if env.readable iso_path = false then
    { valid := false, size := 0, error := "No read permission for ISO file: " ++ iso_path,
      name := name, checksum := "", is_hybrid := false }
  else
    let size := env.fsize iso_path
    if size = 0 then
      { valid := false, size := size, error := "ISO file is empty",
        name := name, checksum := "", is_hybrid := false }
    else if 10737418240 < size then
      { valid := false, size := size, error := "ISO file is too large (>10GB)",
        name := name, checksum := "", is_hybrid := false }
    else if env.readFails iso_path then
      { valid := false, size := size, error := "Cannot read ISO file: I/O error",
        name := name, checksum := "", is_hybrid := false }
    else
      let header := (env.fcontent iso_path).take 32768
      if header.length < 32768 then
        { valid := false, size := size, error := "ISO file is too small",
          name := name, checksum := "", is_hybrid := false }
      else
        let hyb := if seqMem cd001B header then false else is_hybrid_iso header
        if env.checksumReadFails iso_path then
          { valid := true, size := size, error := "Cannot read ISO file: I/O error",
            name := name, checksum := "", is_hybrid := hyb }
        else
          { valid := true, size := size, error := "",
            name := name, checksum := env.sha256 (env.fcontent iso_path), is_hybrid := hyb }

/-- `_validate_target_device` (lines 600-631), together with the warning
messages it pushes through the status callback.  The extra
ambiguous-identity checks run only for device names starting with `sd`:
an `sd` device that cannot be confirmed as USB is rejected when mounted
and allowed with a warning when unmounted; every other name that passes
the existence / block-entry / system-disk checks is accepted outright. -/
def validate_target_device (env : Env) (device_path : String) : Bool × List String :=
  if env.pathExists device_path = false then (false, [])
  else if env.pathExists ("/sys/block/" ++ pyBasename device_path) = false then (false, [])
  else if is_system_disk env device_path then (false, [])
  else
    let device_name := pyBasename device_path
    if pyStartsWith device_name "sd" then
      if is_usb_device_linux env device_path = false then
        let w1 := "Warning: " ++ device_path ++ " may not be a USB device"
        if get_mountpoint env device_path == "Not mounted" then (true, [w1])
        else (false, [w1, "Warning: " ++ device_path ++ " is mounted but not detected as USB"])
      else (true, [])
    else (true, [])

/-- `_safe_unmount` (lines 633-677).  An `umount` is issued (with
`check=False`, so a non-zero exit does not raise; the forced retry of
line 649 only fires when the command itself is missing) for every mount
whose device is prefixed by the target path; `umountOk` records which of
those mounts are actually released.  The mount table is then re-scanned
and the call returns `true` only if no prefixed mount remains.  The
returned environment carries the post-unmount mount table. -/
def safe_unmount (env : Env) (device_path : String) : Bool × Env :=
  let newAll := env.partitionsAll.filter
    (fun p => !(pyStartsWith p.device device_path && env.umountOk p.device))
  let newVis := env.partitions.filter
    (fun p => !(pyStartsWith p.device device_path && env.umountOk p.device))
  let still := newAll.filter (fun p => pyStartsWith p.device device_path)
  (still.isEmpty, { env with partitionsAll := newAll, partitions := newVis })

/-- The result dictionary of `_safe_dd_write` (line 681). -/
structure DDResult where
  success : Bool
  message : String
  bytes_written : Nat
deriving DecidableEq, Repr

/-- `_safe_dd_write` (lines 679-788).  The write-permission check runs
first (direct `os.access`, with the `sudo test -w` fallback when running
with sudo); a cancellation observed by the copy loop / subprocess poll
(`ddStopObserved`) yields the dedicated cancelled result of lines 732 and
769; otherwise the copy either completes (`bytes_written` equal to the
input size, in both the subprocess and the direct strategy) or fails with
the write step's own message. -/
def safe_dd_write (env : Env) (use_sudo : Bool) (input_file output_device : String) : DDResult :=
  if env.writable output_device = false ∧
      (use_sudo = false ∨ env.sudoWritable output_device = false) then
    { success := false, message := "No write permission for device: " ++ output_device,
      bytes_written := 0 }
  else if env.ddStopObserved then
    { success := false, message := "Write operation cancelled", bytes_written := 0 }
  else if env.ddSuccess then
    { success := true, message := "", bytes_written := env.fsize input_file }
  else
    { success := false, message := env.ddMessage, bytes_written := 0 }

/-- Outcome of one chunk-compare round of `_verify_flash`. -/
inductive VerifyReport where
  | ok
  | mismatch (pos a b : Nat)
  | chunkSizeErr
  | indexErr
deriving DecidableEq, Repr

/-- The inner mismatch scan of lines 894-904: walk two chunks in step,
returning the first position (absolute, starting at `base`) where they
differ together with both byte values.  `none` when the common part
agrees: the caller then distinguishes a shorter device chunk (the
`device_chunk[i]` access of line 899 raises `IndexError`) from a longer
one (the `different chunk sizes` branch of line 903). -/
def scanChunk : List Nat → List Nat → Nat → Option (Nat × Nat × Nat)
  | a :: as, b :: bs, base => if a = b then scanChunk as bs (base + 1) else some (base, a, b)
  | _, _, _ => none

/-- The lockstep compare loop of `_verify_flash` (lines 885-913): while
fewer than `iso_size` bytes are compared, read up to
`min 65536 (iso_size - compared)` bytes from each stream, stop with `ok`
if either stream is exhausted, recurse when the chunks agree, and report
otherwise.  Besides the report it returns the two sequences of bytes that
were consumed by agreeing rounds — the streams the two running hashes of
lines 906-907 have digested. -/
def verifyLoop (iso_size : Nat) (isoRem devRem : List Nat) (compared : Nat) :
    VerifyReport × List Nat × List Nat :=
  if h : compared < iso_size then
    let n := min 65536 (iso_size - compared)
    let ic := isoRem.take n
    let dc := devRem.take n
    if hic : ic.isEmpty ∨ dc.isEmpty then (.ok, [], [])
    else if ic = dc then
      let r := verifyLoop iso_size (isoRem.drop n) (devRem.drop n) (compared + ic.length)
      (r.1, ic ++ r.2.1, dc ++ r.2.2)
    else
      match scanChunk ic dc compared with
      | some (p, a, b) => (.mismatch p a b, [], [])
      | none => if dc.length < ic.length then (.indexErr, [], []) else (.chunkSizeErr, [], [])
  else (.ok, [], [])
termination_by iso_size - compared
decreasing_by
  have hne : ic ≠ [] := by
    intro hcon
    exact hic (Or.inl (by simp [hcon]))
  have hpos : 0 < ic.length := List.length_pos.mpr hne
  have h2 : compared < compared + ic.length := by omega
  exact Nat.sub_lt_sub_left h h2

/-- The verification result: the boolean outcome together with the
mismatch report (absolute offset, source byte, device byte) logged at
lines 896-901 when the direct compare finds a differing byte. -/
structure VerifyResult where
  ok : Bool
  report : Option (Nat × Nat × Nat)
deriving DecidableEq, Repr

/-- `_verify_flash` (lines 814-942).  Fails closed when the device is
smaller than the image.  Without direct read access (sudo mode and no
read permission) it falls back to comparing the file digest with a
digest of the first `(iso_size / 65536) * 65536` device bytes produced by
a `dd | sha256sum` pipe, then with the recorded checksum.  With direct
access it runs the lockstep chunk compare; on agreement the two running
digests and then the recorded checksum are compared (an empty recorded
checksum skips that last comparison, line 928). -/
def verify_flash (env : Env) (use_sudo : Bool) (iso_path device_path : String)
    (expected : String) : VerifyResult :=
  if env.devSize device_path < env.fsize iso_path then { ok := false, report := none }
  else if use_sudo = true ∧ env.readable device_path = false then
    if env.ddReadOk = false then { ok := false, report := none }
    else if env.shaPipeOk = false then { ok := false, report := none }
    else if env.sha256 (env.fcontent iso_path) ≠
        env.sha256 ((env.devContent device_path).take (env.fsize iso_path / 65536 * 65536)) then
      { ok := false, report := none }
    else if expected ≠ "" ∧
        env.sha256 ((env.devContent device_path).take (env.fsize iso_path / 65536 * 65536)) ≠
          expected then
      { ok := false, report := none }
    else { ok := true, report := none }
  else
    match verifyLoop (env.fsize iso_path) (env.fcontent iso_path) (env.devContent device_path) 0
      with
    | (.mismatch p a b, _, _) => { ok := false, report := some (p, a, b) }
    | (.indexErr, _, _) => { ok := false, report := none }
    | (.chunkSizeErr, _, _) => { ok := false, report := none }
    | (.ok, isoC, devC) =>
      if env.sha256 isoC ≠ env.sha256 devC then { ok := false, report := none }
      else if expected ≠ "" ∧ env.sha256 devC ≠ expected then { ok := false, report := none }
      else { ok := true, report := none }

/-- The result dictionary of `flash_iso` (lines 489-495). -/
structure FlashResult where
  success : Bool
  message : String
  checksum_verified : Bool
  bytes_written : Nat
deriving DecidableEq, Repr

/-- One `flash_iso` invocation, observed from outside: the returned
result dictionary, the status the session's own control flow leaves in
`self._status` when the call returns, the ordered list of statuses set by
`flash_iso`'s own `_set_status` calls (the session starts from `IDLE`),
the full history of writes to `self._status` during the call — the
session's own writes interleaved with the concurrent `CANCELLED` write
`cancel_flash` performs when invoked mid-call (line 957) — and whether
the unmount / verification steps were entered. -/
structure FlashOutcome where
  result : FlashResult
  finalStatus : FlashStatus
  trace : List FlashStatus
  statusWrites : List FlashStatus
  unmountAttempted : Bool
  verifyAttempted : Bool
deriving DecidableEq, Repr

/-- `flash_iso` (lines 486-598): validate the image, validate the target,
size guard, read-only guard (all under `VALIDATING`), unmount, write,
optional verification, final `COMPLETED`.  Every failure in the
session's own control flow sets `ERROR` and returns; after the write
returns, a cancellation observed in `self._cancelled` (line 558-560)
forces `CANCELLED` in preference to `ERROR` — that line is the only
place the session's control flow reads the flag: `_verify_flash`
contains no stop checks, so a cancellation arriving during verification
is never observed.  `trace` records the session's own `_set_status`
calls; `statusWrites` additionally interleaves the concurrent
`CANCELLED` write `cancel_flash` performs at its arrival point
(`weaveCancel`), so non-linear histories such as
`VALIDATING, CANCELLED, UNMOUNTING, …` are represented.  (`block_size`
and `sync_after` do not influence the modelled state: the block size
only tiles the copy loop and `_safe_sync` only runs `sync`.) -/
def flash_iso (env : Env) (use_sudo : Bool) (iso_path usb_device : String)
    (verify : Bool := true) : FlashOutcome :=
  let v := validate_iso env iso_path
  if v.valid = false then
    { result := ⟨false, "Invalid ISO: " ++ v.error, false, 0⟩,
      finalStatus := .ERROR, trace := [.VALIDATING, .ERROR],
      statusWrites := weaveCancel env.cancelPoint [.VALIDATING, .ERROR],
      unmountAttempted := false, verifyAttempted := false }
  else if (validate_target_device env usb_device).1 = false then
    { result := ⟨false, "Invalid target device: " ++ usb_device, false, 0⟩,
      finalStatus := .ERROR, trace := [.VALIDATING, .ERROR],
      statusWrites := weaveCancel env.cancelPoint [.VALIDATING, .ERROR],
      unmountAttempted := false, verifyAttempted := false }
  else if get_device_size env usb_device < v.size then
    { result := ⟨false, "Target device is too small (" ++
        toString (get_device_size env usb_device) ++ " bytes < " ++
        toString v.size ++ " bytes)", false, 0⟩,
      finalStatus := .ERROR, trace := [.VALIDATING, .ERROR],
      statusWrites := weaveCancel env.cancelPoint [.VALIDATING, .ERROR],
      unmountAttempted := false, verifyAttempted := false }
  else if is_read_only env usb_device then
    { result := ⟨false, "Target device is read-only: " ++ usb_device, false, 0⟩,
      finalStatus := .ERROR, trace := [.VALIDATING, .ERROR],
      statusWrites := weaveCancel env.cancelPoint [.VALIDATING, .ERROR],
      unmountAttempted := false, verifyAttempted := false }
  else if (safe_unmount env usb_device).1 = false then
    { result := ⟨false, "Failed to unmount device: " ++ usb_device, false, 0⟩,
      finalStatus := .ERROR, trace := [.VALIDATING, .UNMOUNTING, .ERROR],
      statusWrites := weaveCancel env.cancelPoint [.VALIDATING, .UNMOUNTING, .ERROR],
      unmountAttempted := true, verifyAttempted := false }
  else
    let fr := safe_dd_write env use_sudo iso_path usb_device
    if fr.success = false ∨ env.cancelRequested = true then
      let st := if env.cancelRequested then FlashStatus.CANCELLED else FlashStatus.ERROR
      { result := ⟨false, fr.message, false, 0⟩,
        finalStatus := st, trace := [.VALIDATING, .UNMOUNTING, .FLASHING, st],
        statusWrites := weaveCancel env.cancelPoint [.VALIDATING, .UNMOUNTING, .FLASHING, st],
        unmountAttempted := true, verifyAttempted := false }
    else if verify then
      let vr := verify_flash env use_sudo iso_path usb_device v.checksum
      if vr.ok = false then
        { result := ⟨false, "Flash verification failed", false, fr.bytes_written⟩,
          finalStatus := .ERROR,
          trace := [.VALIDATING, .UNMOUNTING, .FLASHING, .VERIFYING, .ERROR],
          statusWrites := weaveCancel env.cancelPoint
            [.VALIDATING, .UNMOUNTING, .FLASHING, .VERIFYING, .ERROR],
          unmountAttempted := true, verifyAttempted := true }
      else
        { result := ⟨true, "Flash completed successfully!", true, fr.bytes_written⟩,
          finalStatus := .COMPLETED,
          trace := [.VALIDATING, .UNMOUNTING, .FLASHING, .VERIFYING, .COMPLETED],
          statusWrites := weaveCancel env.cancelPoint
            [.VALIDATING, .UNMOUNTING, .FLASHING, .VERIFYING, .COMPLETED],
          unmountAttempted := true, verifyAttempted := true }
    else
      { result := ⟨true, "Flash completed successfully!", false, fr.bytes_written⟩,
        finalStatus := .COMPLETED,
        trace := [.VALIDATING, .UNMOUNTING, .FLASHING, .COMPLETED],
        statusWrites := weaveCancel env.cancelPoint
          [.VALIDATING, .UNMOUNTING, .FLASHING, .COMPLETED],
        unmountAttempted := true, verifyAttempted := false }

/-- The status a fresh `SafeISOFlasher` starts in (line 76). -/
def initStatus : FlashStatus := .IDLE

/-- The non-terminal stations of the success path, in order. -/
def runChain : List FlashStatus := [.VALIDATING, .UNMOUNTING, .FLASHING, .VERIFYING]

/-! ## Concrete worlds used to exercise the theorems on closed inputs -/

/-- A neutral world: nothing exists, every probe fails benignly. -/
def baseEnv : Env where
  rootMajor := 259
  sysDev := fun _ => none
  lsblk := []
  devSize := fun _ => 0
  pathExists := fun _ => false
  fileRead := fun _ => none
  symlinkTarget := fun _ => none
  walkDirs := fun _ => []
  deviceError := fun _ => false
  partitions := []
  partitionsAll := []
  umountOk := fun _ => true
  diskUsage := fun _ => none
  isFile := fun _ => false
  readable := fun _ => false
  writable := fun _ => false
  sudoWritable := fun _ => false
  fsize := fun _ => 0
  fcontent := fun _ => []
  readFails := fun _ => false
  checksumReadFails := fun _ => false
  devContent := fun _ => []
  sha256 := fun _ => "d"
  ddSuccess := true
  ddMessage := "I/O error during write: disk fault"
  ddStopObserved := false
  cancelRequested := false
  cancelPoint := .none
  ddReadOk := true
  shaPipeOk := true

/-- A 32 KiB image starting with the `CD001` signature. -/
def isoPlainContent : List Nat := cd001B ++ List.replicate 32763 0

/-- A 32 KiB image carrying both `CD001` and the `55 AA` boot-sector
marker at offset 510. -/
def isoHybridContent : List Nat :=
  (cd001B ++ List.replicate 505 0) ++ 85 :: 170 :: List.replicate 32256 0

/-- Device bytes differing from `isoPlainContent` at offset 0. -/
def badDevContent : List Nat := 66 :: List.replicate 32767 0

/-- A healthy world: a 32 KiB valid image at `/tmp/test.iso`, one 32 KiB
removable USB disk `/dev/sdb` (major 8, root major 259), unmounted,
writable, whose content after the write equals the image. -/
def envGood : Env :=
  { baseEnv with
    sysDev := fun n => if n = "sdb" then some 8 else none
    lsblk := [("sdb", "disk")]
    devSize := fun _ => 32768
    pathExists := fun p => p == "/tmp/test.iso" || p == "/dev/sdb" || p == "/sys/block/sdb"
    fileRead := fun p => if p = "/sys/block/sdb/removable" then some "1" else none
    isFile := fun p => p == "/tmp/test.iso"
    readable := fun _ => true
    writable := fun _ => true
    fsize := fun _ => 32768
    fcontent := fun _ => isoPlainContent
    devContent := fun _ => isoPlainContent }

/-- `envGood` with a device one byte smaller than the image. -/
def envSmall : Env := { envGood with devSize := fun _ => 32767 }

/-- `envGood` with a cancellation signalled during the write. -/
def envCancel : Env :=
  { envGood with
    ddStopObserved := true
    cancelRequested := true
    cancelPoint := .flashing }

/-- `envGood` with a cancellation arriving during the validation phase:
the stop event is then already set when the write loop starts, so the
write returns cancelled and the flag is set at the line-558 check. -/
def envCancelEarly : Env :=
  { envGood with
    ddStopObserved := true
    cancelRequested := true
    cancelPoint := .validating }

/-- `envGood` with a cancellation arriving during the verification
phase: the write completed normally, the line-558 check saw a clear
flag, and `_verify_flash` never reads the flag. -/
def envCancelVerify : Env := { envGood with cancelPoint := .verifying }

/-- `envGood` with device content differing from the image at offset 0. -/
def envBadDev : Env := { envGood with devContent := fun _ => badDevContent }

/-- `envGood` with an I/O error during the checksum pass of `validate_iso`. -/
def envCk : Env := { envGood with checksumReadFails := fun _ => true }

/-- `envGood` with the image carrying both `CD001` and a boot-sector marker. -/
def envHyb : Env := { envGood with fcontent := fun _ => isoHybridContent }

/-- A world with a mounted non-USB, non-`sd` disk `/dev/mmcblk0`
(major 179; the root lives on major 259). -/
def envMmc : Env :=
  { baseEnv with
    pathExists := fun p => p == "/dev/mmcblk0" || p == "/sys/block/mmcblk0"
    sysDev := fun n => if n = "mmcblk0" then some 179 else none
    fileRead := fun p => if p = "/sys/block/mmcblk0/removable" then some "0" else none
    partitions := [⟨"/dev/mmcblk0", "/mnt/data", "ext4"⟩] }

/-- A world with a mounted `sd`-named disk that cannot be confirmed as USB. -/
def envSdMounted : Env :=
  { baseEnv with
    pathExists := fun p => p == "/dev/sdc" || p == "/sys/block/sdc"
    sysDev := fun n => if n = "sdc" then some 8 else none
    fileRead := fun p => if p = "/sys/block/sdc/removable" then some "0" else none
    partitions := [⟨"/dev/sdc", "/mnt/usb", "vfat"⟩] }

/-- `envSdMounted` with the disk unmounted. -/
def envSdUnmounted : Env := { envSdMounted with partitions := [] }

/-- `envGood` with an unreadable `/sys/block/<name>/dev` for every device. -/
def envNoSys : Env := { envGood with sysDev := fun _ => none }

/-- `envMmc` with an unreadable `/sys/block/<name>/dev` for every device. -/
def envMmcNoSys : Env := { envMmc with sysDev := fun _ => none }

/-- The device record `/dev/sdb` produces in `envGood`. -/
def usbDevGood : USBDevice := mkUSBDevice envGood "/dev/sdb" 32768

/-! ## Helper lemmas -/

theorem isPrefixOf_self_append {α : Type} [BEq α] [LawfulBEq α] (l r : List α) :
    l.isPrefixOf (l ++ r) = true := by
  induction l with
  | nil => simp [List.isPrefixOf]
  | cons a t ih => simp [List.isPrefixOf, ih]

theorem seqMem_of_isPrefixOf {α : Type} [BEq α] {needle hay : List α}
    (h : needle.isPrefixOf hay = true) : seqMem needle hay = true := by
  cases hay with
  | nil =>
    cases needle with
    | nil => rfl
    | cons a t => simp [List.isPrefixOf] at h
  | cons a t => simp [seqMem, h]

theorem isoPlain_length : isoPlainContent.length = 32768 := by
  rw [isoPlainContent, List.length_append, List.length_replicate]
  rfl

theorem isoHybrid_length : isoHybridContent.length = 32768 := by
  rw [isoHybridContent, List.length_append, List.length_append, List.length_cons,
    List.length_cons, List.length_replicate, List.length_replicate]
  rfl

theorem badDev_length : badDevContent.length = 32768 := by
  rw [badDevContent, List.length_cons, List.length_replicate]

theorem take_isoPlain : isoPlainContent.take 32768 = isoPlainContent :=
  List.take_of_length_le (by rw [isoPlain_length])

theorem take_isoHybrid : isoHybridContent.take 32768 = isoHybridContent :=
  List.take_of_length_le (by rw [isoHybrid_length])

theorem seqMem_cd001_isoPlain : seqMem cd001B isoPlainContent = true :=
  seqMem_of_isPrefixOf (isPrefixOf_self_append cd001B _)

theorem seqMem_cd001_isoHybrid : seqMem cd001B isoHybridContent = true := by
  have h : isoHybridContent = cd001B ++
      (List.replicate 505 0 ++ 85 :: 170 :: List.replicate 32256 0) := by
    rw [isoHybridContent, List.append_assoc]
  rw [h]
  exact seqMem_of_isPrefixOf (isPrefixOf_self_append cd001B _)

theorem isoHybrid_bootsector :
    (isoHybridContent.drop 510).take 2 = [85, 170] := by
  have hpre : (cd001B ++ List.replicate 505 0).length = 510 := by
    rw [List.length_append, List.length_replicate]
    rfl
  have h : isoHybridContent.drop 510 =
      85 :: 170 :: List.replicate 32256 0 := by
    rw [isoHybridContent, ← hpre, List.drop_left]
  rw [h]
  rfl

theorem is_hybrid_iso_isoHybrid : is_hybrid_iso isoHybridContent = true := by
  rw [is_hybrid_iso, if_pos]
  exact ⟨by rw [isoHybrid_length]; omega, isoHybrid_bootsector⟩

/-- Evaluation of `validate_iso` on a well-formed `CD001` image. -/
theorem validate_iso_valid_cd001 (env : Env) (path : String)
    (h1 : env.pathExists path = true) (h2 : env.isFile path = true)
    (h3 : env.readable path = true) (h4 : env.fsize path ≠ 0)
    (h5 : ¬ 10737418240 < env.fsize path) (h6 : env.readFails path = false)
    (h7 : 32768 ≤ (env.fcontent path).length)
    (h8 : seqMem cd001B ((env.fcontent path).take 32768) = true)
    (h9 : env.checksumReadFails path = false) :
    validate_iso env path =
      { valid := true, size := env.fsize path, error := "",
        name := pyBasename path, checksum := env.sha256 (env.fcontent path),
        is_hybrid := false } := by
  have hl : ((env.fcontent path).take 32768).length = 32768 := by
    rw [List.length_take]
    omega
  unfold validate_iso
  rw [h1, h2, h3, h6, h9]
  simp [h4, h5, hl, h8]

/-- Evaluation of `validate_iso` on a well-formed `CD001` image whose
checksum pass hits an `IOError`. -/
theorem validate_iso_cd001_ckfail (env : Env) (path : String)
    (h1 : env.pathExists path = true) (h2 : env.isFile path = true)
    (h3 : env.readable path = true) (h4 : env.fsize path ≠ 0)
    (h5 : ¬ 10737418240 < env.fsize path) (h6 : env.readFails path = false)
    (h7 : 32768 ≤ (env.fcontent path).length)
    (h8 : seqMem cd001B ((env.fcontent path).take 32768) = true)
    (h9 : env.checksumReadFails path = true) :
    validate_iso env path =
      { valid := true, size := env.fsize path,
        error := "Cannot read ISO file: I/O error",
        name := pyBasename path, checksum := "", is_hybrid := false } := by
  have hl : ((env.fcontent path).take 32768).length = 32768 := by
    rw [List.length_take]
    omega
  unfold validate_iso
  rw [h1, h2, h3, h6, h9]
  simp [h4, h5, hl, h8]

theorem fcontent_envGood : envGood.fcontent "/tmp/test.iso" = isoPlainContent := rfl

/-- `validate_iso` evaluated in the healthy world. -/
theorem validate_iso_envGood :
    validate_iso envGood "/tmp/test.iso" =
      { valid := true, size := 32768, error := "", name := "test.iso",
        checksum := "d", is_hybrid := false } := by
  have h7 : (32768 : Nat) ≤ (envGood.fcontent "/tmp/test.iso").length := by
    rw [fcontent_envGood, isoPlain_length]
  have h8 : seqMem cd001B ((envGood.fcontent "/tmp/test.iso").take 32768) = true := by
    rw [fcontent_envGood, take_isoPlain]
    exact seqMem_cd001_isoPlain
  have h := validate_iso_valid_cd001 envGood "/tmp/test.iso" (by decide) (by decide)
    (by decide) (by decide) (by decide) (by decide) h7 h8 (by decide)
  rw [h]
  rfl

theorem mkUSBDevice_device (env : Env) (dp : String) (s : Nat) :
    (mkUSBDevice env dp s).device = dp := by
  unfold mkUSBDevice
  dsimp only
  split
  · rfl
  · split <;> rfl

theorem mkUSBDevice_total_size (env : Env) (dp : String) (s : Nat) :
    (mkUSBDevice env dp s).total_size = s := by
  unfold mkUSBDevice
  dsimp only
  split
  · rfl
  · split <;> rfl

theorem getD_take_of_lt (l : List Nat) (m i : Nat) (h : i < m) :
    (l.take m).getD i 0 = l.getD i 0 := by
  rw [List.getD_eq_getElem?_getD, List.getD_eq_getElem?_getD, List.getElem?_take]
  simp [h]

theorem getD_drop_add (l : List Nat) (m j : Nat) :
    (l.drop m).getD j 0 = l.getD (m + j) 0 := by
  rw [List.getD_eq_getElem?_getD, List.getD_eq_getElem?_getD, List.getElem?_drop]

/-- `scanChunk` finds the first differing position of two chunks. -/
theorem scanChunk_spec : ∀ (i : Nat) (ic dc : List Nat) (base : Nat),
    (∀ j, j < i → ic.getD j 0 = dc.getD j 0) →
    i < ic.length → i < dc.length →
    ic.getD i 0 ≠ dc.getD i 0 →
    scanChunk ic dc base = some (base + i, ic.getD i 0, dc.getD i 0) := by
  intro i
  induction i with
  | zero =>
    intro ic dc base hpre hic hdc hne
    cases ic with
    | nil => simp at hic
    | cons a as =>
      cases dc with
      | nil => simp at hdc
      | cons b bs =>
        have hab : a ≠ b := by simpa using hne
        simp [scanChunk, hab]
  | succ k ih =>
    intro ic dc base hpre hic hdc hne
    cases ic with
    | nil => simp at hic
    | cons a as =>
      cases dc with
      | nil => simp at hdc
      | cons b bs =>
        have hab : a = b := by
          have h0 := hpre 0 (Nat.succ_pos k)
          simpa using h0
        have hrec := ih as bs (base + 1)
          (fun j hj => by
            have hs := hpre (j + 1) (by omega)
            simpa using hs)
          (by simpa using hic) (by simpa using hdc)
          (by simpa using hne)
        rw [scanChunk, if_pos hab, hrec]
        have hb : base + 1 + k = base + (k + 1) := by omega
        simp [hb]

/-- Two unequal lists of the same length have a first differing index. -/
theorem exists_least_diff : ∀ (l1 l2 : List Nat), l1.length = l2.length → l1 ≠ l2 →
    ∃ i, i < l1.length ∧ (∀ j, j < i → l1.getD j 0 = l2.getD j 0) ∧
      l1.getD i 0 ≠ l2.getD i 0 := by
  intro l1
  induction l1 with
  | nil =>
    intro l2 hlen hne
    cases l2 with
    | nil => exact absurd rfl hne
    | cons b s => simp at hlen
  | cons a t ih =>
    intro l2 hlen hne
    cases l2 with
    | nil => simp at hlen
    | cons b s =>
      by_cases hab : a = b
      · have htn : t ≠ s := by
          intro hc
          exact hne (by rw [hab, hc])
        obtain ⟨i, hi, hpre, hne2⟩ := ih s (by simpa using hlen) htn
        refine ⟨i + 1, by simpa using hi, ?_, by simpa using hne2⟩
        intro j hj
        cases j with
        | zero => simpa using hab
        | succ k =>
          have hk := hpre k (by omega)
          simpa using hk
      · exact ⟨0, by simp, fun j hj => absurd hj (by omega), by simpa using hab⟩

/-- When the relevant prefix of the device agrees with the image, the
compare loop finishes with `ok` and both hash streams saw exactly the
image bytes. -/
theorem verifyLoop_agree (iso_size : Nat) :
    ∀ (fuel compared : Nat) (isoRem devRem : List Nat),
      iso_size - compared ≤ fuel →
      isoRem.length = iso_size - compared →
      isoRem.length ≤ devRem.length →
      devRem.take isoRem.length = isoRem →
      verifyLoop iso_size isoRem devRem compared = (.ok, isoRem, isoRem) := by
  intro fuel
  induction fuel with
  | zero =>
    intro compared isoRem devRem hfuel hlen hle htake
    have h0 : isoRem = [] := List.length_eq_zero.mp (by omega)
    subst h0
    rw [verifyLoop, dif_neg (by omega)]
  | succ n ih =>
    intro compared isoRem devRem hfuel hlen hle htake
    by_cases hc : compared < iso_size
    · set m := min 65536 (iso_size - compared) with hm
      have hm1 : 1 ≤ m := by omega
      have hmlen : m ≤ isoRem.length := by omega
      have hic_len : (isoRem.take m).length = m := by
        rw [List.length_take]
        omega
      have hdc : devRem.take m = isoRem.take m := by
        have h1 : (devRem.take isoRem.length).take m = devRem.take m := by
          rw [List.take_take, Nat.min_eq_left hmlen]
        rw [← h1, htake]
      have hicne : isoRem.take m ≠ [] := by
        intro hnil
        rw [hnil] at hic_len
        simp at hic_len
        omega
      rw [verifyLoop, dif_pos hc]
      dsimp only
      rw [← hm]
      rw [dif_neg (by
        intro hor
        have h0 : isoRem.take m = [] := by
          rw [hdc] at hor
          rcases hor with h | h <;> exact List.isEmpty_iff.mp h
        rw [h0] at hic_len
        simp at hic_len
        omega)]
      rw [if_pos hdc.symm, hic_len]
      have hfuel2 : iso_size - (compared + m) ≤ n := by omega
      have hlen2 : (isoRem.drop m).length = iso_size - (compared + m) := by
        rw [List.length_drop]
        omega
      have hle2 : (isoRem.drop m).length ≤ (devRem.drop m).length := by
        rw [List.length_drop, List.length_drop]
        omega
      have htake2 : (devRem.drop m).take (isoRem.drop m).length = isoRem.drop m := by
        have h2 := congrArg (List.drop m) htake
        rw [List.drop_take] at h2
        rw [List.length_drop, ← h2]
      rw [ih (compared + m) _ _ hfuel2 hlen2 hle2 htake2]
      rw [hdc, List.take_append_drop]
    · have h0 : isoRem = [] := List.length_eq_zero.mp (by omega)
      subst h0
      rw [verifyLoop, dif_neg hc]

/-- When the image and the device first differ at (absolute) index `i`
inside the compared range, the loop reports exactly that mismatch. -/
theorem verifyLoop_mismatch (iso_size : Nat) :
    ∀ (fuel compared : Nat) (isoRem devRem : List Nat) (i : Nat),
      iso_size - compared ≤ fuel →
      isoRem.length = iso_size - compared →
      isoRem.length ≤ devRem.length →
      i < isoRem.length →
      (∀ j, j < i → isoRem.getD j 0 = devRem.getD j 0) →
      isoRem.getD i 0 ≠ devRem.getD i 0 →
      (verifyLoop iso_size isoRem devRem compared).1 =
        .mismatch (compared + i) (isoRem.getD i 0) (devRem.getD i 0) := by
  intro fuel
  induction fuel with
  | zero =>
    intro compared isoRem devRem i hfuel hlen hle hi hpre hne
    omega
  | succ n ih =>
    intro compared isoRem devRem i hfuel hlen hle hi hpre hne
    have hc : compared < iso_size := by omega
    set m := min 65536 (iso_size - compared) with hm
    have hm1 : 1 ≤ m := by omega
    have hmlen : m ≤ isoRem.length := by omega
    have hic_len : (isoRem.take m).length = m := by
      rw [List.length_take]
      omega
    have hdc_len : (devRem.take m).length = m := by
      rw [List.length_take]
      omega
    rw [verifyLoop, dif_pos hc]
    dsimp only
    rw [← hm]
    rw [dif_neg (by
      intro hor
      rcases hor with h | h
      · have h0 := List.isEmpty_iff.mp h
        rw [h0] at hic_len
        simp at hic_len
        omega
      · have h0 := List.isEmpty_iff.mp h
        rw [h0] at hdc_len
        simp at hdc_len
        omega)]
    by_cases him : i < m
    · have h1 : (isoRem.take m).getD i 0 = isoRem.getD i 0 := getD_take_of_lt _ _ _ him
      have h2 : (devRem.take m).getD i 0 = devRem.getD i 0 := getD_take_of_lt _ _ _ him
      have hicne : isoRem.take m ≠ devRem.take m := by
        intro he
        exact hne (by rw [← h1, ← h2, he])
      rw [if_neg hicne]
      have hsc := scanChunk_spec i (isoRem.take m) (devRem.take m) compared
        (fun j hj => by
          rw [getD_take_of_lt _ _ _ (by omega), getD_take_of_lt _ _ _ (by omega)]
          exact hpre j hj)
        (by omega) (by omega)
        (by rw [h1, h2]; exact hne)
      rw [hsc, h1, h2]
    · have hchunk : isoRem.take m = devRem.take m := by
        apply List.ext_getElem (by omega)
        intro j hj1 hj2
        have hjm : j < m := by omega
        have hgd : (isoRem.take m).getD j 0 = (devRem.take m).getD j 0 := by
          rw [getD_take_of_lt _ _ _ hjm, getD_take_of_lt _ _ _ hjm]
          exact hpre j (by omega)
        rwa [List.getD_eq_getElem _ _ hj1, List.getD_eq_getElem _ _ hj2] at hgd
      rw [if_pos hchunk]
      dsimp only
      have hrec := ih (compared + (isoRem.take m).length) (isoRem.drop m) (devRem.drop m)
        (i - m)
        (by rw [hic_len]; omega)
        (by rw [hic_len, List.length_drop]; omega)
        (by rw [List.length_drop, List.length_drop]; omega)
        (by rw [List.length_drop]; omega)
        (fun j hj => by
          rw [getD_drop_add, getD_drop_add]
          exact hpre (m + j) (by omega))
        (by
          rw [getD_drop_add, getD_drop_add]
          have hmi : m + (i - m) = i := by omega
          rw [hmi]
          exact hne)
      rw [hrec, hic_len]
      have hmi : m + (i - m) = i := by omega
      rw [getD_drop_add, getD_drop_add, hmi]
      have hci : compared + m + (i - m) = compared + i := by omega
      rw [hci]

/-- Evaluation of `validate_iso` on any world holding the standard
32 KiB test image at `/tmp/test.iso`. -/
theorem validate_iso_goodLike (env : Env)
    (hpe : env.pathExists "/tmp/test.iso" = true)
    (hif : env.isFile "/tmp/test.iso" = true)
    (hr : env.readable "/tmp/test.iso" = true)
    (hs : env.fsize "/tmp/test.iso" = 32768)
    (hf : env.fcontent "/tmp/test.iso" = isoPlainContent)
    (hrf : env.readFails "/tmp/test.iso" = false)
    (hcf : env.checksumReadFails "/tmp/test.iso" = false) :
    validate_iso env "/tmp/test.iso" =
      { valid := true, size := 32768, error := "", name := "test.iso",
        checksum := env.sha256 isoPlainContent, is_hybrid := false } := by
  have h := validate_iso_valid_cd001 env "/tmp/test.iso" hpe hif hr
    (by rw [hs]; decide) (by rw [hs]; decide) hrf
    (by rw [hf, isoPlain_length]) (by rw [hf, take_isoPlain]; exact seqMem_cd001_isoPlain) hcf
  rw [h, hs, hf]
  have hn : pyBasename "/tmp/test.iso" = "test.iso" := by decide
  rw [hn]

/-- A string with a nonempty head part stays nonempty under append. -/
theorem ne_empty_append (s t : String) (h : s.data ≠ []) : s ++ t ≠ "" := by
  intro hc
  have h2 : (s ++ t).data = "".data := congrArg String.data hc
  rw [String.data_append s t] at h2
  exact h (List.append_eq_nil.mp h2).1

theorem weaveCancel_none (l : List FlashStatus) :
    weaveCancel CancelPoint.none l = l := by
  induction l with
  | nil => rfl
  | cons s t ih => simp [weaveCancel, cancelAfter, ih]

/-- The full status history is the session's own writes with at most one
`CANCELLED` inserted. -/
theorem weaveCancel_shape (cp : CancelPoint) (l : List FlashStatus) :
    weaveCancel cp l = l ∨
    ∃ n, weaveCancel cp l = l.take n ++ FlashStatus.CANCELLED :: l.drop n := by
  induction l with
  | nil => exact Or.inl rfl
  | cons s t ih =>
    by_cases hs : cancelAfter cp = some s
    · refine Or.inr ⟨1, ?_⟩
      simp [weaveCancel, hs]
    · rcases ih with he | ⟨n, hn⟩
      · exact Or.inl (by simp [weaveCancel, hs, he])
      · refine Or.inr ⟨n + 1, ?_⟩
        simp [weaveCancel, hs, hn]

/-- In every branch of `flash_iso` the recorded status history is the
session's own trace woven with the concurrent cancellation write. -/
theorem flash_statusWrites (env : Env) (us : Bool) (iso dev : String) (verify : Bool) :
    (flash_iso env us iso dev verify).statusWrites =
      weaveCancel env.cancelPoint (flash_iso env us iso dev verify).trace := by
  unfold flash_iso
  dsimp only
  split
  · rfl
  · split
    · rfl
    · split
      · rfl
      · split
        · rfl
        · split
          · rfl
          · split
            · rfl
            · split
              · split
                · rfl
                · rfl
              · rfl

/-! ## Claim theorems -/

/-- C1: every device returned by `list_usb_devices` is not the system
disk (its sysfs major never equals the root filesystem's major), has
nonzero size, and the returned sequence is sorted by device path; the
system disk never appears in any result. -/
theorem C1_device_catalog (env : Env) :
    (∀ d ∈ list_usb_devices env,
        is_system_disk env d.device = false ∧
        (∀ maj, env.sysDev (pyBasename (rstripSlash d.device)) = some maj →
          maj ≠ env.rootMajor) ∧
        d.total_size ≠ 0) ∧
    List.Sorted deviceLE (list_usb_devices env) := by
  constructor
  · intro d hd
    have hd2 : d ∈ list_usb_devices_linux env := by
      unfold list_usb_devices at hd
      exact (List.mem_insertionSort deviceLE).mp hd
    unfold list_usb_devices_linux at hd2
    obtain ⟨dp, hmem, hf⟩ := List.mem_filterMap.mp hd2
    by_cases h1 : env.deviceError dp = true
    · simp [h1] at hf
    by_cases h2 : is_system_disk env dp = true
    · simp [h1, h2] at hf
    by_cases h3 : is_usb_device_linux env dp = false
    · simp [h1, h2, h3] at hf
    by_cases h4 : get_device_size env dp = 0
    · simp [h1, h2, h3, h4] at hf
    have hd3 : d = mkUSBDevice env dp (get_device_size env dp) := by
      simp [h1, h2, h3, h4] at hf
      exact hf.symm
    have hdev : d.device = dp := by rw [hd3, mkUSBDevice_device]
    have hsys : is_system_disk env d.device = false := by
      rw [hdev]
      rcases Bool.eq_false_or_eq_true (is_system_disk env dp) with hb | hb
      · exact absurd hb h2
      · exact hb
    refine ⟨hsys, ?_, ?_⟩
    · intro maj hmaj heq
      unfold is_system_disk at hsys
      rw [hmaj] at hsys
      simp at hsys
      exact hsys heq
    · rw [hd3, mkUSBDevice_total_size]
      exact h4
  · unfold list_usb_devices
    exact List.sorted_insertionSort deviceLE _

/-- Witness for C1 on the concrete world `envGood`. -/
theorem C1_device_catalog_witness :
    usbDevGood ∈ list_usb_devices envGood ∧
    (∀ maj, envGood.sysDev (pyBasename (rstripSlash usbDevGood.device)) = some maj →
      maj ≠ envGood.rootMajor) ∧
    usbDevGood.total_size ≠ 0 ∧
    List.Sorted deviceLE (list_usb_devices envGood) := by
  have hmem : usbDevGood ∈ list_usb_devices envGood := by decide
  have h := C1_device_catalog envGood
  have h2 := h.1 usbDevGood hmem
  exact ⟨hmem, h2.2.1, h2.2.2, h.2⟩

/-- C10: if `/sys/block/<name>/dev` cannot be read or parsed, the
system-disk classification returns `false` (fails open), hence the
device is treated as a non-system disk both by enumeration (it is listed
when the remaining conditions hold) and by target validation (which then
accepts it when its other checks pass). -/
theorem C10_system_disk_fail_open (env : Env) (p : String)
    (h : env.sysDev (pyBasename (rstripSlash p)) = none) :
    is_system_disk env p = false ∧
    (p ∈ get_all_block_devices env → env.deviceError p = false →
      is_usb_device_linux env p = true → get_device_size env p ≠ 0 →
      mkUSBDevice env p (get_device_size env p) ∈ list_usb_devices_linux env) ∧
    (env.pathExists p = true →
      env.pathExists ("/sys/block/" ++ pyBasename p) = true →
      pyStartsWith (pyBasename p) "sd" = false →
      (validate_target_device env p).1 = true) := by
  have hsys : is_system_disk env p = false := by
    unfold is_system_disk
    rw [h]
  refine ⟨hsys, ?_, ?_⟩
  · intro hmem herr husb hsz
    unfold list_usb_devices_linux
    refine List.mem_filterMap.mpr ⟨p, hmem, ?_⟩
    simp [herr, hsys, husb, hsz]
  · intro hp hsb hsd
    unfold validate_target_device
    simp [hp, hsb, hsys, hsd]

/-- Witness for C10: with sysfs unreadable, `/dev/sdb` is still
enumerated and `/dev/mmcblk0` still passes target validation. -/
theorem C10_system_disk_fail_open_witness :
    is_system_disk envNoSys "/dev/sdb" = false ∧
    mkUSBDevice envNoSys "/dev/sdb" (get_device_size envNoSys "/dev/sdb") ∈
      list_usb_devices_linux envNoSys ∧
    (validate_target_device envMmcNoSys "/dev/mmcblk0").1 = true := by
  have h1 := C10_system_disk_fail_open envNoSys "/dev/sdb" (by decide)
  have h2 := C10_system_disk_fail_open envMmcNoSys "/dev/mmcblk0" (by decide)
  exact ⟨h1.1, h1.2.1 (by decide) (by decide) (by decide) (by decide),
    h2.2.2 (by decide) (by decide) (by decide)⟩

/-- C8: `_safe_unmount` is idempotent: on a device with no mounted
partitions it returns `true` (leaving the mount table untouched), and
whenever a call returns `true`, a second call on the resulting world
returns `true` again. -/
theorem C8_unmount_idempotent (env : Env) (p : String) :
    ((env.partitionsAll.filter (fun m => pyStartsWith m.device p)).isEmpty = true →
      (safe_unmount env p).1 = true) ∧
    ((safe_unmount env p).1 = true →
      (safe_unmount (safe_unmount env p).2 p).1 = true) := by
  constructor
  · intro hempty
    unfold safe_unmount
    dsimp only
    rw [List.isEmpty_iff] at hempty ⊢
    rw [List.filter_eq_nil_iff] at hempty ⊢
    intro a ha
    exact hempty a (List.mem_of_mem_filter ha)
  · intro h1
    unfold safe_unmount at h1 ⊢
    dsimp only at h1 ⊢
    rw [List.isEmpty_iff, List.filter_eq_nil_iff] at h1 ⊢
    intro a ha
    exact h1 a (List.mem_of_mem_filter ha)

/-- Witness for C8 on `envGood` (no mounts). -/
theorem C8_unmount_idempotent_witness :
    (safe_unmount envGood "/dev/sdb").1 = true ∧
    (safe_unmount (safe_unmount envGood "/dev/sdb").2 "/dev/sdb").1 = true := by
  have h := C8_unmount_idempotent envGood "/dev/sdb"
  have h1 : (safe_unmount envGood "/dev/sdb").1 = true := h.1 (by decide)
  exact ⟨h1, h.2 h1⟩

/-- Counterexample to C3 as stated: `/dev/mmcblk0` exists, has a block
entry, is not the system disk, cannot be confirmed as USB, and is
mounted — yet `_validate_target_device` returns `true`, because the
ambiguous-identity rejection only runs for `sd`-named devices. -/
theorem C3_counterexample :
    is_usb_device_linux envMmc "/dev/mmcblk0" = false ∧
    get_mountpoint envMmc "/dev/mmcblk0" ≠ "Not mounted" ∧
    envMmc.pathExists "/dev/mmcblk0" = true ∧
    envMmc.pathExists "/sys/block/mmcblk0" = true ∧
    is_system_disk envMmc "/dev/mmcblk0" = false ∧
    (validate_target_device envMmc "/dev/mmcblk0").1 = true := by
  exact ⟨by decide, by decide, by decide, by decide, by decide, by decide⟩

/-- C3 (amended): for `sd`-named target devices whose identity cannot be
confirmed as USB (given existence, a block entry and not being the
system disk), validation returns `false` when the device is mounted and
`true` with a warning when it is unmounted. -/
theorem C3_ambiguous_sd_guard (env : Env) (p : String)
    (h1 : env.pathExists p = true)
    (h2 : env.pathExists ("/sys/block/" ++ pyBasename p) = true)
    (h3 : is_system_disk env p = false)
    (h4 : pyStartsWith (pyBasename p) "sd" = true)
    (h5 : is_usb_device_linux env p = false) :
    (get_mountpoint env p ≠ "Not mounted" →
      validate_target_device env p =
        (false, ["Warning: " ++ p ++ " may not be a USB device",
                 "Warning: " ++ p ++ " is mounted but not detected as USB"])) ∧
    (get_mountpoint env p = "Not mounted" →
      validate_target_device env p =
        (true, ["Warning: " ++ p ++ " may not be a USB device"])) := by
  constructor
  · intro hm
    unfold validate_target_device
    simp [h1, h2, h3, h4, h5, hm]
  · intro hm
    unfold validate_target_device
    simp [h1, h2, h3, h4, h5, hm]

/-- Witness for the amended C3 on concrete mounted/unmounted worlds. -/
theorem C3_ambiguous_sd_guard_witness :
    validate_target_device envSdMounted "/dev/sdc" =
      (false, ["Warning: /dev/sdc may not be a USB device",
               "Warning: /dev/sdc is mounted but not detected as USB"]) ∧
    validate_target_device envSdUnmounted "/dev/sdc" =
      (true, ["Warning: /dev/sdc may not be a USB device"]) := by
  have ha := C3_ambiguous_sd_guard envSdMounted "/dev/sdc"
    (by decide) (by decide) (by decide) (by decide) (by decide)
  have hb := C3_ambiguous_sd_guard envSdUnmounted "/dev/sdc"
    (by decide) (by decide) (by decide) (by decide) (by decide)
  constructor
  · rw [ha.1 (by decide)]
    decide
  · rw [hb.2 (by decide)]
    decide

/-- C9 (amended): `validate_iso` never raises (it is a total function
here); `valid = false` holds exactly on the seven pre-classification
failure paths, each of which also populates a non-empty error; but an
I/O error during the checksum pass (after classification) returns a
non-empty error together with `valid = true`. -/
theorem C9_validator_failure_paths (env : Env) (path : String) :
    ((validate_iso env path).valid = false ↔
      (env.pathExists path = false ∨ env.isFile path = false ∨
       env.readable path = false ∨ env.fsize path = 0 ∨
       10737418240 < env.fsize path ∨ env.readFails path = true ∨
       ((env.fcontent path).take 32768).length < 32768)) ∧
    ((validate_iso env path).valid = false → (validate_iso env path).error ≠ "") ∧
    ((validate_iso env path).valid = true → env.checksumReadFails path = true →
      (validate_iso env path).error ≠ "") := by
  unfold validate_iso
  dsimp only
  split_ifs <;> simp_all
  all_goals exact ne_empty_append _ path (by decide)

/-- Witness for the amended C9: a missing path yields an invalid
descriptor with a message; the checksum-pass I/O error keeps `valid`. -/
theorem C9_validator_failure_paths_witness :
    (validate_iso baseEnv "/nope").valid = false ∧
    (validate_iso baseEnv "/nope").error ≠ "" ∧
    (validate_iso envCk "/tmp/test.iso").error ≠ "" := by
  have h := C9_validator_failure_paths baseEnv "/nope"
  have hFail : baseEnv.pathExists "/nope" = false ∨ baseEnv.isFile "/nope" = false ∨
      baseEnv.readable "/nope" = false ∨ baseEnv.fsize "/nope" = 0 ∨
      10737418240 < baseEnv.fsize "/nope" ∨ baseEnv.readFails "/nope" = true ∨
      ((baseEnv.fcontent "/nope").take 32768).length < 32768 :=
    Or.inl (by decide)
  have hck : validate_iso envCk "/tmp/test.iso" =
      { valid := true, size := 32768, error := "Cannot read ISO file: I/O error",
        name := "test.iso", checksum := "", is_hybrid := false } := by
    have hcc := validate_iso_cd001_ckfail envCk "/tmp/test.iso" (by decide) (by decide)
      (by decide) (by decide) (by decide) (by decide)
      (by rw [show envCk.fcontent "/tmp/test.iso" = isoPlainContent from rfl, isoPlain_length])
      (by rw [show envCk.fcontent "/tmp/test.iso" = isoPlainContent from rfl, take_isoPlain]
          exact seqMem_cd001_isoPlain)
      (by decide)
    rw [hcc]
    decide
  have h2 := C9_validator_failure_paths envCk "/tmp/test.iso"
  refine ⟨h.1.mpr hFail, h.2.1 (h.1.mpr hFail), ?_⟩
  exact h2.2.2 (by rw [hck]) (by decide)

/-- Counterexample to the deviating half of C9: in `envCk` the checksum
pass fails with an I/O error, and `validate_iso` returns the error
message with `valid = true`, not `valid = false` as the claim requires
for every read-error path. -/
theorem C9_counterexample :
    (validate_iso envCk "/tmp/test.iso").valid = true ∧
    (validate_iso envCk "/tmp/test.iso").error ≠ "" := by
  have hcc := validate_iso_cd001_ckfail envCk "/tmp/test.iso" (by decide) (by decide)
    (by decide) (by decide) (by decide) (by decide)
    (by rw [show envCk.fcontent "/tmp/test.iso" = isoPlainContent from rfl, isoPlain_length])
    (by rw [show envCk.fcontent "/tmp/test.iso" = isoPlainContent from rfl, take_isoPlain]
        exact seqMem_cd001_isoPlain)
    (by decide)
  rw [hcc]
  exact ⟨rfl, by decide⟩

/-- C7 (amended): a readable, well-sized file whose 32 KiB header
contains `CD001` is marked valid with the hybrid flag `false` — always,
even when boot-sector markers are also present, because the hybrid probe
only runs in the `elif` branch taken when `CD001` is absent. -/
theorem C7_cd001_classification (env : Env) (path : String)
    (h1 : env.pathExists path = true) (h2 : env.isFile path = true)
    (h3 : env.readable path = true) (h4 : env.fsize path ≠ 0)
    (h5 : ¬ 10737418240 < env.fsize path) (h6 : env.readFails path = false)
    (h7 : 32768 ≤ (env.fcontent path).length)
    (h8 : seqMem cd001B ((env.fcontent path).take 32768) = true) :
    (validate_iso env path).valid = true ∧
    (validate_iso env path).is_hybrid = false := by
  by_cases h9 : env.checksumReadFails path = true
  · rw [validate_iso_cd001_ckfail env path h1 h2 h3 h4 h5 h6 h7 h8 h9]
    exact ⟨rfl, rfl⟩
  · have h9f : env.checksumReadFails path = false := by
      rcases Bool.eq_false_or_eq_true (env.checksumReadFails path) with hb | hb
      · exact absurd hb h9
      · exact hb
    rw [validate_iso_valid_cd001 env path h1 h2 h3 h4 h5 h6 h7 h8 h9f]
    exact ⟨rfl, rfl⟩

/-- Witness for the amended C7 on `envGood`. -/
theorem C7_cd001_classification_witness :
    (validate_iso envGood "/tmp/test.iso").valid = true ∧
    (validate_iso envGood "/tmp/test.iso").is_hybrid = false := by
  exact C7_cd001_classification envGood "/tmp/test.iso" (by decide) (by decide) (by decide)
    (by decide) (by decide) (by decide)
    (by rw [fcontent_envGood, isoPlain_length])
    (by rw [fcontent_envGood, take_isoPlain]; exact seqMem_cd001_isoPlain)

/-- Counterexample to C7 as stated: in `envHyb` the header contains both
`CD001` and the `55 AA` boot-sector marker, yet the returned descriptor
has `is_hybrid = false` (the claim requires `true` in that case). -/
theorem C7_counterexample :
    seqMem cd001B ((envHyb.fcontent "/tmp/test.iso").take 32768) = true ∧
    is_hybrid_iso ((envHyb.fcontent "/tmp/test.iso").take 32768) = true ∧
    (validate_iso envHyb "/tmp/test.iso").valid = true ∧
    (validate_iso envHyb "/tmp/test.iso").is_hybrid = false := by
  have hfc : envHyb.fcontent "/tmp/test.iso" = isoHybridContent := rfl
  have h8 : seqMem cd001B ((envHyb.fcontent "/tmp/test.iso").take 32768) = true := by
    rw [hfc, take_isoHybrid]
    exact seqMem_cd001_isoHybrid
  have h := validate_iso_valid_cd001 envHyb "/tmp/test.iso" (by decide) (by decide)
    (by decide) (by decide) (by decide) (by decide)
    (by rw [hfc, isoHybrid_length]) h8 (by decide)
  refine ⟨h8, ?_, by rw [h], by rw [h]⟩
  rw [hfc, take_isoHybrid]
  exact is_hybrid_iso_isoHybrid

/-- Evaluation of the verifier in the healthy world. -/
theorem verify_envGood :
    verify_flash envGood false "/tmp/test.iso" "/dev/sdb" "d" = { ok := true, report := none } := by
  have e1 : envGood.fsize "/tmp/test.iso" = 32768 := rfl
  have e2 : envGood.fcontent "/tmp/test.iso" = isoPlainContent := rfl
  have e3 : envGood.devContent "/dev/sdb" = isoPlainContent := rfl
  have key : verifyLoop (envGood.fsize "/tmp/test.iso") (envGood.fcontent "/tmp/test.iso")
      (envGood.devContent "/dev/sdb") 0 = (.ok, isoPlainContent, isoPlainContent) := by
    rw [e1, e2, e3]
    exact verifyLoop_agree 32768 32768 0 isoPlainContent isoPlainContent (by omega)
      (by simp [isoPlain_length]) (le_refl _) (List.take_length isoPlainContent)
  unfold verify_flash
  rw [if_neg (by decide), if_neg (by decide), key]
  dsimp only
  rw [if_neg (by intro hq; exact hq rfl)]
  rw [if_neg (by intro hq; exact hq.2 rfl)]

/-- Evaluation of the full pipeline in the healthy world. -/
theorem flash_envGood :
    flash_iso envGood false "/tmp/test.iso" "/dev/sdb" true =
      { result := ⟨true, "Flash completed successfully!", true, 32768⟩,
        finalStatus := .COMPLETED,
        trace := [.VALIDATING, .UNMOUNTING, .FLASHING, .VERIFYING, .COMPLETED],
        statusWrites := [.VALIDATING, .UNMOUNTING, .FLASHING, .VERIFYING, .COMPLETED],
        unmountAttempted := true, verifyAttempted := true } := by
  have hv := validate_iso_goodLike envGood (by decide) (by decide) (by decide) rfl rfl rfl rfl
  have hcp : envGood.cancelPoint = CancelPoint.none := rfl
  have hvt : (validate_target_device envGood "/dev/sdb").1 = true := by decide
  have hdd : safe_dd_write envGood false "/tmp/test.iso" "/dev/sdb" =
      { success := true, message := "", bytes_written := 32768 } := by decide
  have hum : (safe_unmount envGood "/dev/sdb").1 = true := by decide
  have hro : is_read_only envGood "/dev/sdb" = false := by decide
  have hds : get_device_size envGood "/dev/sdb" = 32768 := rfl
  have hcr : envGood.cancelRequested = false := rfl
  have hsha : envGood.sha256 isoPlainContent = "d" := rfl
  simp [flash_iso, hv, hvt, hdd, hum, hro, hds, hcr, hsha, verify_envGood, hcp,
    weaveCancel_none]

/-- Evaluation of the pipeline under a mid-write cancellation. -/
theorem flash_envCancel :
    flash_iso envCancel false "/tmp/test.iso" "/dev/sdb" true =
      { result := ⟨false, "Write operation cancelled", false, 0⟩,
        finalStatus := .CANCELLED,
        trace := [.VALIDATING, .UNMOUNTING, .FLASHING, .CANCELLED],
        statusWrites := [.VALIDATING, .UNMOUNTING, .FLASHING, .CANCELLED, .CANCELLED],
        unmountAttempted := true, verifyAttempted := false } := by
  have hv := validate_iso_goodLike envCancel (by decide) (by decide) (by decide) rfl rfl rfl rfl
  have hvt : (validate_target_device envCancel "/dev/sdb").1 = true := by decide
  have hdd : safe_dd_write envCancel false "/tmp/test.iso" "/dev/sdb" =
      { success := false, message := "Write operation cancelled", bytes_written := 0 } := by
    decide
  have hum : (safe_unmount envCancel "/dev/sdb").1 = true := by decide
  have hro : is_read_only envCancel "/dev/sdb" = false := by decide
  have hds : get_device_size envCancel "/dev/sdb" = 32768 := rfl
  have hcr : envCancel.cancelRequested = true := rfl
  have hcp : envCancel.cancelPoint = CancelPoint.flashing := rfl
  simp [flash_iso, hv, hvt, hdd, hum, hro, hds, hcr, hcp, weaveCancel, cancelAfter]


/-- Evaluation of the verifier in the world with a verification-phase
cancellation (the verifier itself never observes the flag). -/
theorem verify_envCancelVerify :
    verify_flash envCancelVerify false "/tmp/test.iso" "/dev/sdb" "d" =
      { ok := true, report := none } := by
  have e1 : envCancelVerify.fsize "/tmp/test.iso" = 32768 := rfl
  have e2 : envCancelVerify.fcontent "/tmp/test.iso" = isoPlainContent := rfl
  have e3 : envCancelVerify.devContent "/dev/sdb" = isoPlainContent := rfl
  have key : verifyLoop (envCancelVerify.fsize "/tmp/test.iso")
      (envCancelVerify.fcontent "/tmp/test.iso")
      (envCancelVerify.devContent "/dev/sdb") 0 = (.ok, isoPlainContent, isoPlainContent) := by
    rw [e1, e2, e3]
    exact verifyLoop_agree 32768 32768 0 isoPlainContent isoPlainContent (by omega)
      (by simp [isoPlain_length]) (le_refl _) (List.take_length isoPlainContent)
  unfold verify_flash
  rw [if_neg (by decide), if_neg (by decide), key]
  dsimp only
  rw [if_neg (by intro hq; exact hq rfl)]
  rw [if_neg (by intro hq; exact hq.2 rfl)]

/-- Evaluation of the pipeline when `cancel_flash` arrives during the
verification phase: its `CANCELLED` write lands in the status history,
is never observed, and the session ends `COMPLETED` with success. -/
theorem flash_envCancelVerify :
    flash_iso envCancelVerify false "/tmp/test.iso" "/dev/sdb" true =
      { result := ⟨true, "Flash completed successfully!", true, 32768⟩,
        finalStatus := .COMPLETED,
        trace := [.VALIDATING, .UNMOUNTING, .FLASHING, .VERIFYING, .COMPLETED],
        statusWrites := [.VALIDATING, .UNMOUNTING, .FLASHING, .VERIFYING, .CANCELLED,
          .COMPLETED],
        unmountAttempted := true, verifyAttempted := true } := by
  have hv := validate_iso_goodLike envCancelVerify (by decide) (by decide) (by decide)
    rfl rfl rfl rfl
  have hcp : envCancelVerify.cancelPoint = CancelPoint.verifying := rfl
  have hvt : (validate_target_device envCancelVerify "/dev/sdb").1 = true := by decide
  have hdd : safe_dd_write envCancelVerify false "/tmp/test.iso" "/dev/sdb" =
      { success := true, message := "", bytes_written := 32768 } := by decide
  have hum : (safe_unmount envCancelVerify "/dev/sdb").1 = true := by decide
  have hro : is_read_only envCancelVerify "/dev/sdb" = false := by decide
  have hds : get_device_size envCancelVerify "/dev/sdb" = 32768 := rfl
  have hcr : envCancelVerify.cancelRequested = false := rfl
  have hsha : envCancelVerify.sha256 isoPlainContent = "d" := rfl
  simp [flash_iso, hv, hvt, hdd, hum, hro, hds, hcr, hsha, verify_envCancelVerify, hcp,
    weaveCancel, cancelAfter]

/-- Evaluation of the pipeline when `cancel_flash` arrives during the
validation phase: its `CANCELLED` write precedes the `UNMOUNTING` and
`FLASHING` writes, and the write loop then observes the stop event. -/
theorem flash_envCancelEarly :
    flash_iso envCancelEarly false "/tmp/test.iso" "/dev/sdb" true =
      { result := ⟨false, "Write operation cancelled", false, 0⟩,
        finalStatus := .CANCELLED,
        trace := [.VALIDATING, .UNMOUNTING, .FLASHING, .CANCELLED],
        statusWrites := [.VALIDATING, .CANCELLED, .UNMOUNTING, .FLASHING, .CANCELLED],
        unmountAttempted := true, verifyAttempted := false } := by
  have hv := validate_iso_goodLike envCancelEarly (by decide) (by decide) (by decide)
    rfl rfl rfl rfl
  have hcp : envCancelEarly.cancelPoint = CancelPoint.validating := rfl
  have hvt : (validate_target_device envCancelEarly "/dev/sdb").1 = true := by decide
  have hdd : safe_dd_write envCancelEarly false "/tmp/test.iso" "/dev/sdb" =
      { success := false, message := "Write operation cancelled", bytes_written := 0 } := by
    decide
  have hum : (safe_unmount envCancelEarly "/dev/sdb").1 = true := by decide
  have hro : is_read_only envCancelEarly "/dev/sdb" = false := by decide
  have hds : get_device_size envCancelEarly "/dev/sdb" = 32768 := rfl
  have hcr : envCancelEarly.cancelRequested = true := rfl
  simp [flash_iso, hv, hvt, hdd, hum, hro, hds, hcr, hcp, weaveCancel, cancelAfter]

/-- C2: with a valid image and a validated target, an image of exactly
the device size passes the size guard (the run reaches the unmount
step), while an image one byte larger than the device makes `flash_iso`
return `success = false` with status `ERROR` before any unmount is
attempted. -/
theorem C2_size_guard (env : Env) (us : Bool) (iso dev : String) (verify : Bool)
    (hv : (validate_iso env iso).valid = true)
    (ht : (validate_target_device env dev).1 = true) :
    (get_device_size env dev = (validate_iso env iso).size →
      is_read_only env dev = false →
      (flash_iso env us iso dev verify).unmountAttempted = true) ∧
    ((validate_iso env iso).size = get_device_size env dev + 1 →
      (flash_iso env us iso dev verify).result.success = false ∧
      (flash_iso env us iso dev verify).finalStatus = .ERROR ∧
      (flash_iso env us iso dev verify).unmountAttempted = false ∧
      (flash_iso env us iso dev verify).trace = [.VALIDATING, .ERROR]) := by
  constructor
  · intro hsz hro
    simp [flash_iso, hv, ht, hsz, hro]
    split
    · rfl
    · split
      · rfl
      · split
        · split <;> rfl
        · rfl
  · intro hsz
    simp [flash_iso, hv, ht, hsz]

/-- Witness for C2 on the equal-size and one-byte-short worlds. -/
theorem C2_size_guard_witness :
    (flash_iso envGood false "/tmp/test.iso" "/dev/sdb" true).unmountAttempted = true ∧
    (flash_iso envSmall false "/tmp/test.iso" "/dev/sdb" true).result.success = false ∧
    (flash_iso envSmall false "/tmp/test.iso" "/dev/sdb" true).finalStatus = .ERROR ∧
    (flash_iso envSmall false "/tmp/test.iso" "/dev/sdb" true).unmountAttempted = false ∧
    (flash_iso envSmall false "/tmp/test.iso" "/dev/sdb" true).trace =
      [.VALIDATING, .ERROR] := by
  have hva := validate_iso_goodLike envGood (by decide) (by decide) (by decide) rfl rfl rfl rfl
  have hvb := validate_iso_goodLike envSmall (by decide) (by decide) (by decide) rfl rfl rfl rfl
  have ha := C2_size_guard envGood false "/tmp/test.iso" "/dev/sdb" true (by rw [hva]) (by decide)
  have hb := C2_size_guard envSmall false "/tmp/test.iso" "/dev/sdb" true (by rw [hvb]) (by decide)
  have hsza : get_device_size envGood "/dev/sdb" = (validate_iso envGood "/tmp/test.iso").size := by
    rw [hva]
    rfl
  have hszb : (validate_iso envSmall "/tmp/test.iso").size =
      get_device_size envSmall "/dev/sdb" + 1 := by
    rw [hvb]
    rfl
  have h1 := ha.1 hsza (by decide)
  have h2 := hb.2 hszb
  exact ⟨h1, h2.1, h2.2.1, h2.2.2.1, h2.2.2.2⟩

/-- C5: when the pre-write stages pass and a cancellation is signalled
during the write (observed by the copy loop, with the cancel flag set at
the post-write check), `flash_iso` ends with status `CANCELLED`, returns
`success = false`, and never enters the verification step. -/
theorem C5_cancel_mid_write (env : Env) (us : Bool) (iso dev : String) (verify : Bool)
    (h1 : (validate_iso env iso).valid = true)
    (h2 : (validate_target_device env dev).1 = true)
    (h3 : ¬ get_device_size env dev < (validate_iso env iso).size)
    (h4 : is_read_only env dev = false)
    (h5 : (safe_unmount env dev).1 = true)
    (hstop : env.ddStopObserved = true)
    (hc : env.cancelRequested = true) :
    (flash_iso env us iso dev verify).finalStatus = .CANCELLED ∧
    (flash_iso env us iso dev verify).result.success = false ∧
    (flash_iso env us iso dev verify).verifyAttempted = false ∧
    FlashStatus.VERIFYING ∉ (flash_iso env us iso dev verify).trace := by
  simp [flash_iso, h1, h2, h3, h4, h5, hc]

/-- Witness for C5 on the cancelled world. -/
theorem C5_cancel_mid_write_witness :
    (flash_iso envCancel false "/tmp/test.iso" "/dev/sdb" true).finalStatus = .CANCELLED ∧
    (flash_iso envCancel false "/tmp/test.iso" "/dev/sdb" true).result.success = false ∧
    FlashStatus.VERIFYING ∉ (flash_iso envCancel false "/tmp/test.iso" "/dev/sdb" true).trace := by
  have hv := validate_iso_goodLike envCancel (by decide) (by decide) (by decide) rfl rfl rfl rfl
  have h := C5_cancel_mid_write envCancel false "/tmp/test.iso" "/dev/sdb" true
    (by rw [hv]) (by decide) (by rw [hv]; decide) (by decide) (by decide) rfl rfl
  exact ⟨h.1, h.2.1, h.2.2.2⟩

set_option maxHeartbeats 1000000 in
/-- C4 (amended): a fresh session starts in `IDLE`; the statuses set by
`flash_iso`'s own control flow are a prefix of the linear chain
`VALIDATING → UNMOUNTING → FLASHING → VERIFYING` closed by exactly one
terminal (`COMPLETED`, `ERROR` or `CANCELLED`), which is the status the
session leaves behind; a successful run with verification follows the
full success chain; at the post-write check a set cancel flag forces
`CANCELLED` over `ERROR`.  The full status history equals those writes
when no cancellation arrives, and in general is that sequence with at
most one concurrent `CANCELLED` write of `cancel_flash` inserted — so
the machine does transition out of `CANCELLED` (it is not terminal) —
and a cancellation arriving during the verification phase is never
observed: such a session still ends in `COMPLETED` or `ERROR`. -/
theorem C4_status_machine (env : Env) (us : Bool) (iso dev : String) (verify : Bool) :
    initStatus = FlashStatus.IDLE ∧
    (∃ k t, 1 ≤ k ∧ k ≤ 4 ∧
      (t = FlashStatus.COMPLETED ∨ t = FlashStatus.ERROR ∨ t = FlashStatus.CANCELLED) ∧
      (flash_iso env us iso dev verify).trace = runChain.take k ++ [t] ∧
      (flash_iso env us iso dev verify).finalStatus = t) ∧
    ((flash_iso env us iso dev verify).result.success = true → verify = true →
      (flash_iso env us iso dev verify).trace =
        [.VALIDATING, .UNMOUNTING, .FLASHING, .VERIFYING, .COMPLETED]) ∧
    (FlashStatus.FLASHING ∈ (flash_iso env us iso dev verify).trace →
      env.cancelRequested = true →
      (flash_iso env us iso dev verify).finalStatus = .CANCELLED) ∧
    (env.cancelPoint = CancelPoint.none →
      (flash_iso env us iso dev verify).statusWrites =
        (flash_iso env us iso dev verify).trace) ∧
    ((flash_iso env us iso dev verify).statusWrites =
        (flash_iso env us iso dev verify).trace ∨
      ∃ n, (flash_iso env us iso dev verify).statusWrites =
        (flash_iso env us iso dev verify).trace.take n ++
          FlashStatus.CANCELLED :: (flash_iso env us iso dev verify).trace.drop n) ∧
    (env.cancelPoint = CancelPoint.verifying →
      FlashStatus.VERIFYING ∈ (flash_iso env us iso dev verify).trace →
      ((flash_iso env us iso dev verify).finalStatus = .COMPLETED ∨
        (flash_iso env us iso dev verify).finalStatus = .ERROR)) := by
  refine ⟨rfl, ?_, ?_, ?_, ?_, ?_, ?_⟩
  · unfold flash_iso
    dsimp only
    split
    · exact ⟨1, .ERROR, by omega, by omega, Or.inr (Or.inl rfl), rfl, rfl⟩
    · split
      · exact ⟨1, .ERROR, by omega, by omega, Or.inr (Or.inl rfl), rfl, rfl⟩
      · split
        · exact ⟨1, .ERROR, by omega, by omega, Or.inr (Or.inl rfl), rfl, rfl⟩
        · split
          · exact ⟨1, .ERROR, by omega, by omega, Or.inr (Or.inl rfl), rfl, rfl⟩
          · split
            · exact ⟨2, .ERROR, by omega, by omega, Or.inr (Or.inl rfl), rfl, rfl⟩
            · split
              · refine ⟨3, if env.cancelRequested then .CANCELLED else .ERROR,
                  by omega, by omega, ?_, rfl, rfl⟩
                cases hcr : env.cancelRequested
                · simp [hcr]
                · simp [hcr]
              · split
                · split
                  · exact ⟨4, .ERROR, by omega, by omega, Or.inr (Or.inl rfl), rfl, rfl⟩
                  · exact ⟨4, .COMPLETED, by omega, by omega, Or.inl rfl, rfl, rfl⟩
                · exact ⟨3, .COMPLETED, by omega, by omega, Or.inl rfl, rfl, rfl⟩
  · unfold flash_iso
    dsimp only
    split
    · intro hs _
      simp at hs
    · split
      · intro hs _
        simp at hs
      · split
        · intro hs _
          simp at hs
        · split
          · intro hs _
            simp at hs
          · split
            · intro hs _
              simp at hs
            · split
              · intro hs _
                simp at hs
              · split
                · split
                  · intro hs _
                    simp at hs
                  · intro _ _
                    rfl
                · rename_i hnv
                  intro _ hv
                  exact absurd hv hnv
  · unfold flash_iso
    dsimp only
    split
    · intro hmem _
      simp at hmem
    · split
      · intro hmem _
        simp at hmem
      · split
        · intro hmem _
          simp at hmem
        · split
          · intro hmem _
            simp at hmem
          · split
            · intro hmem _
              simp at hmem
            · split
              · intro _ hcr
                simp [hcr]
              · rename_i hcond
                intro _ hcr
                exact absurd (Or.inr hcr) hcond
  · intro hcp
    rw [flash_statusWrites, hcp, weaveCancel_none]
  · rcases weaveCancel_shape env.cancelPoint (flash_iso env us iso dev verify).trace
      with he | ⟨n, hn⟩
    · exact Or.inl (by rw [flash_statusWrites, he])
    · exact Or.inr ⟨n, by rw [flash_statusWrites, hn]⟩
  · unfold flash_iso
    dsimp only
    split
    · intro _ hmem
      simp at hmem
    · split
      · intro _ hmem
        simp at hmem
      · split
        · intro _ hmem
          simp at hmem
        · split
          · intro _ hmem
            simp at hmem
          · split
            · intro _ hmem
              simp at hmem
            · split
              · intro _ hmem
                cases hcr : env.cancelRequested <;> simp [hcr] at hmem
              · split
                · split
                  · intro _ _
                    exact Or.inr rfl
                  · intro _ _
                    exact Or.inl rfl
                · intro _ hmem
                  simp at hmem

/-- Counterexample to C4 as stated: in `envCancelVerify` an explicit
cancellation arrives during verification; the session's status history
passes through `CANCELLED` and then transitions out of it, ending in
`COMPLETED` with `success = true` — so `Cancelled` is not terminal and
the cancellation neither halts the session nor takes priority.  In
`envCancelEarly` the history `VALIDATING, CANCELLED, UNMOUNTING,
FLASHING, CANCELLED` likewise leaves the `CANCELLED` state twice
entered. -/
theorem C4_counterexample :
    envCancelVerify.cancelPoint ≠ CancelPoint.none ∧
    (flash_iso envCancelVerify false "/tmp/test.iso" "/dev/sdb" true).statusWrites =
      [.VALIDATING, .UNMOUNTING, .FLASHING, .VERIFYING, .CANCELLED, .COMPLETED] ∧
    (flash_iso envCancelVerify false "/tmp/test.iso" "/dev/sdb" true).finalStatus =
      .COMPLETED ∧
    (flash_iso envCancelVerify false "/tmp/test.iso" "/dev/sdb" true).result.success = true ∧
    (flash_iso envCancelEarly false "/tmp/test.iso" "/dev/sdb" true).statusWrites =
      [.VALIDATING, .CANCELLED, .UNMOUNTING, .FLASHING, .CANCELLED] := by
  refine ⟨by decide, ?_, ?_, ?_, ?_⟩
  · rw [flash_envCancelVerify]
  · rw [flash_envCancelVerify]
  · rw [flash_envCancelVerify]
  · rw [flash_envCancelEarly]

/-- Witness for the amended C4 across the successful, write-cancelled
and verify-cancelled worlds. -/
theorem C4_status_machine_witness :
    (flash_iso envGood false "/tmp/test.iso" "/dev/sdb" true).trace =
      [.VALIDATING, .UNMOUNTING, .FLASHING, .VERIFYING, .COMPLETED] ∧
    (flash_iso envCancel false "/tmp/test.iso" "/dev/sdb" true).finalStatus = .CANCELLED ∧
    (flash_iso envGood false "/tmp/test.iso" "/dev/sdb" true).statusWrites =
      (flash_iso envGood false "/tmp/test.iso" "/dev/sdb" true).trace ∧
    ((flash_iso envCancelVerify false "/tmp/test.iso" "/dev/sdb" true).finalStatus =
        .COMPLETED ∨
      (flash_iso envCancelVerify false "/tmp/test.iso" "/dev/sdb" true).finalStatus =
        .ERROR) := by
  refine ⟨?_, ?_, ?_, ?_⟩
  · exact (C4_status_machine envGood false "/tmp/test.iso" "/dev/sdb" true).2.2.1
      (by rw [flash_envGood]) rfl
  · exact (C4_status_machine envCancel false "/tmp/test.iso" "/dev/sdb" true).2.2.2.1
      (by rw [flash_envCancel]; decide) rfl
  · exact (C4_status_machine envGood false "/tmp/test.iso" "/dev/sdb" true).2.2.2.2.1 rfl
  · exact (C4_status_machine envCancelVerify false "/tmp/test.iso" "/dev/sdb"
      true).2.2.2.2.2.2 rfl (by rw [flash_envCancelVerify]; decide)

/-- C6: in the direct-read verification path (with a consistent world:
stat sizes match content lengths, and the recorded expected checksum is
the digest of the image), `_verify_flash` returns `true` exactly when
the first image-size bytes of the device equal the image bytes; and on
the first differing byte it returns `false` with a report carrying the
absolute byte offset and both byte values (the loop stops there: the
report names the least differing index). -/
theorem C6_verifier (env : Env) (us : Bool) (iso dev : String) (expected : String)
    (hsz : env.fsize iso = (env.fcontent iso).length)
    (hdz : env.devSize dev = (env.devContent dev).length)
    (hdirect : us = true → env.readable dev = true)
    (hexp : expected = env.sha256 (env.fcontent iso)) :
    ((verify_flash env us iso dev expected).ok = true ↔
      (env.devContent dev).take (env.fsize iso) = env.fcontent iso) ∧
    (∀ i, i < env.fsize iso →
      (∀ j, j < i → (env.fcontent iso).getD j 0 = (env.devContent dev).getD j 0) →
      (env.fcontent iso).getD i 0 ≠ (env.devContent dev).getD i 0 →
      env.fsize iso ≤ env.devSize dev →
      verify_flash env us iso dev expected =
        { ok := false,
          report := some (i, (env.fcontent iso).getD i 0, (env.devContent dev).getD i 0) }) := by
  have hnotfb : ¬(us = true ∧ env.readable dev = false) := by
    rintro ⟨hu, hr⟩
    rw [hdirect hu] at hr
    exact absurd hr (by simp)
  constructor
  · by_cases hlt : env.devSize dev < env.fsize iso
    · unfold verify_flash
      rw [if_pos hlt]
      constructor
      · intro hok
        exact absurd hok (by simp)
      · intro htk
        exfalso
        have hlen := congrArg List.length htk
        rw [List.length_take] at hlen
        omega
    · unfold verify_flash
      rw [if_neg hlt, if_neg hnotfb]
      by_cases heq : (env.devContent dev).take (env.fsize iso) = env.fcontent iso
      · have key := verifyLoop_agree (env.fsize iso) (env.fsize iso) 0 (env.fcontent iso)
          (env.devContent dev) (by omega) (by omega) (by omega) (by rw [← hsz]; exact heq)
        rw [key]
        dsimp only
        rw [if_neg (by intro hq; exact hq rfl)]
        rw [if_neg (by intro hq; exact hq.2 hexp.symm)]
        simp [heq]
      · have hlen2 : (env.fcontent iso).length =
            ((env.devContent dev).take (env.fsize iso)).length := by
          rw [List.length_take]
          omega
        obtain ⟨i, hi, hpre, hnei⟩ := exists_least_diff (env.fcontent iso)
          ((env.devContent dev).take (env.fsize iso)) hlen2 (fun hcc => heq hcc.symm)
        have hi2 : i < env.fsize iso := by omega
        have key := verifyLoop_mismatch (env.fsize iso) (env.fsize iso) 0 (env.fcontent iso)
          (env.devContent dev) i (by omega) (by omega) (by omega) (by omega)
          (fun j hj => (hpre j hj).trans (getD_take_of_lt _ _ _ (by omega)))
          (by
            intro hcc
            apply hnei
            rw [getD_take_of_lt _ _ _ hi2]
            exact hcc)
        rcases hv : verifyLoop (env.fsize iso) (env.fcontent iso) (env.devContent dev) 0
          with ⟨r, c1, c2⟩
        rw [hv] at key
        dsimp only at key
        rw [key]
        dsimp only
        constructor
        · intro hok
          exact absurd hok (by simp)
        · intro hcc
          exact absurd hcc heq
  · intro i hi hpre hnei hle
    have hnlt : ¬ env.devSize dev < env.fsize iso := by omega
    unfold verify_flash
    rw [if_neg hnlt, if_neg hnotfb]
    have key := verifyLoop_mismatch (env.fsize iso) (env.fsize iso) 0 (env.fcontent iso)
      (env.devContent dev) i (by omega) (by omega) (by omega) (by omega) hpre hnei
    rcases hv : verifyLoop (env.fsize iso) (env.fcontent iso) (env.devContent dev) 0
      with ⟨r, c1, c2⟩
    rw [hv] at key
    dsimp only at key
    rw [key]
    simp

/-- Witness for C6: the matching device verifies `true`; a device
differing at offset 0 yields the mismatch report `(0, 67, 66)`. -/
theorem C6_verifier_witness :
    (verify_flash envGood false "/tmp/test.iso" "/dev/sdb" "d").ok = true ∧
    verify_flash envBadDev false "/tmp/test.iso" "/dev/sdb" "d" =
      { ok := false, report := some (0, 67, 66) } := by
  constructor
  · have h := (C6_verifier envGood false "/tmp/test.iso" "/dev/sdb" "d"
      (by rw [fcontent_envGood, isoPlain_length]; rfl)
      (by rw [show envGood.devContent "/dev/sdb" = isoPlainContent from rfl, isoPlain_length]
          rfl)
      (by intro hcon; exact absurd hcon (by decide)) rfl).1
    refine h.mpr ?_
    rw [show envGood.devContent "/dev/sdb" = isoPlainContent from rfl, fcontent_envGood,
      show envGood.fsize "/tmp/test.iso" = 32768 from rfl, take_isoPlain]
  · have h := (C6_verifier envBadDev false "/tmp/test.iso" "/dev/sdb" "d"
      (by rw [show envBadDev.fcontent "/tmp/test.iso" = isoPlainContent from rfl,
        isoPlain_length]; rfl)
      (by rw [show envBadDev.devContent "/dev/sdb" = badDevContent from rfl, badDev_length]
          rfl)
      (by intro hcon; exact absurd hcon (by decide)) rfl).2 0 (by decide)
      (fun j hj => absurd hj (by omega)) (by decide) (by decide)
    rw [h]
    decide

end PicoFlasher
